import Mathlib

/-!
Shallow embedding of `src/graceful_shutdown/manager.py` (the
`turnbullerin/graceful-shutdown` package).

Modelling conventions:
* The monotonic clock (`time.monotonic()`) is modelled by an explicit `now : ℚ`
  argument threaded through every operation that reads the clock.
* The block registry (a Python dict from uuid strings to float deadlines) is an
  association list `List (Key × ℚ)` with unique keys; uuid4 generation is
  modelled by a `nextKey` counter in the state (uuid strings are unique and
  non-empty, hence always truthy in Python).
* Raised exceptions are reified as an `Outcome` value returned beside the new
  state; callbacks (`before_termination`, `hup_handler`) are modelled by
  whether they are configured and whether the configured callable raises
  (`Option Bool`, `some true` meaning the call raises).
* Observable side effects of an operation — sleeping in the calling context,
  running callbacks, spawning the `_InterruptingCow` watcher thread — are
  collected in an effect trace `List Eff`.
* Logging via `_safe_log`/`self.log` is not observable here: `_safe_log`
  swallows `RuntimeError` and the model treats every log call as a no-op.
-/

namespace GracefulShutdown

/-- Monotonic timestamps and durations, in seconds (`float` in the source). -/
abbrev Time := ℚ

/-- Registry keys; the source uses `str(uuid.uuid4())`, modelled by a counter. -/
abbrev Key := Nat

/-- Exceptions the manager can raise or let propagate.
`callbackError` stands for an arbitrary exception escaping a configured
user callback. -/
inductive Outcome where
  /-- `SystemExit(code)` -/
  | systemExit (code : Int)
  /-- `KeyboardInterrupt()` -/
  | keyboardInterrupt
  /-- `ShutdownImminentException()` -/
  | shutdownImminent
  /-- `HaltProtectedBlockException()` -/
  | haltProtectedBlock
  /-- an exception raised by a user-configured callback, propagating -/
  | callbackError
  /-- `ValueError` from `ProtectedBlock.renew` without an active key -/
  | valueError
deriving DecidableEq, Repr

/-- Observable side effects of an operation, in order of occurrence. -/
inductive Eff where
  /-- `time.sleep d` executed in the calling context -/
  | sleep (d : Time)
  /-- the configured `before_termination` callback is invoked -/
  | callbackRun
  /-- the configured `hup_handler` callback is invoked -/
  | hupCallbackRun
  /-- an `_InterruptingCow(d)` daemon thread is started -/
  | spawnWatcher (d : Time)
deriving DecidableEq, Repr

/-- `true` exactly for `Eff.sleep` effects. -/
def Eff.isSleep : Eff → Bool
  | .sleep _ => true
  | _ => false

/-- State of the `ShutdownManager` singleton (mutable attributes set in
`__init__`, plus the uuid source). -/
structure ManagerState where
  /-- `self._block_registry` -/
  registry : List (Key × Time)
  /-- models the `uuid.uuid4()` stream: next fresh key -/
  nextKey : Key
  /-- `self._attempts` -/
  attempts : Nat
  /-- `self._kill_raised` -/
  killRaised : Bool
  /-- `self._term_requested` -/
  termRequested : Bool
  /-- `self.terminate_on_logoff` -/
  terminateOnLogoff : Bool
  /-- `self.terminate_on_hup` -/
  terminateOnHup : Bool
  /-- `self.default_max_exec_time` -/
  defaultMaxExecTime : Time
  /-- `self.max_termination_attempts` -/
  maxTerminationAttempts : Nat
  /-- `self.before_termination`: `none` = not configured; `some b` =
  configured, raising an exception iff `b` -/
  beforeTermination : Option Bool
  /-- `self.hup_handler`: `none` = not configured; `some b` = configured,
  raising iff `b` -/
  hupHandler : Option Bool
deriving DecidableEq, Repr

/-- `ShutdownManager.__init__` field values (`isNT` selects the
`os.name == 'nt'` default grace period, 4.5s on NT and 89.5s elsewhere). -/
def initialState (isNT : Bool) : ManagerState where
  registry := []
  nextKey := 0
  attempts := 0
  killRaised := false
  termRequested := false
  terminateOnLogoff := true
  terminateOnHup := true
  defaultMaxExecTime := if isNT then 4.5 else 89.5
  maxTerminationAttempts := 3
  beforeTermination := none
  hupHandler := none

/-- The `if max_exec_time is None or max_exec_time <= 0: max_exec_time =
self.default_max_exec_time` normalisation shared by `register_block` and
`renew_block`. -/
def effDuration (maxExecTime : Option Time) (dflt : Time) : Time :=
  match maxExecTime with
  | none => dflt
  | some t => if t ≤ 0 then dflt else t

/-- Python dict assignment `registry[k] = d`: replace the binding if `k` is
present, insert it otherwise. -/
def setKey (r : List (Key × Time)) (k : Key) (d : Time) : List (Key × Time) :=
  if r.any (fun p => p.1 = k) then
    r.map (fun p => if p.1 = k then (k, d) else p)
  else
    (k, d) :: r

/-- Python `del registry[k]` guarded by `if k in registry`. -/
def removeKey (r : List (Key × Time)) (k : Key) : List (Key × Time) :=
  r.filter (fun p => p.1 ≠ k)

/-- `max(self._block_registry.values())`; only consulted on a non-empty
registry (`_kill_time` checks emptiness first), `-1` is a dead default. -/
def maxDeadline : List (Key × Time) → Time
  | [] => -1
  | p :: t => t.foldl (fun a q => max a q.2) p.2

/-- `ShutdownManager._raise_exception`: sets `_kill_raised`, runs the
`before_termination` callback if configured (unprotected: if the callback
raises, its exception propagates instead of the termination outcome), then
raises `SystemExit(1)` or `KeyboardInterrupt()` according to
`_term_requested`. -/
def raiseException (s : ManagerState) : ManagerState × Outcome × List Eff :=
  let s1 := { s with killRaised := true }
  match s.beforeTermination with
  | none =>
      (s1, if s1.termRequested then .systemExit 1 else .keyboardInterrupt, [])
  | some raises =>
      if raises then
        (s1, .callbackError, [.callbackRun])
      else
        (s1, if s1.termRequested then .systemExit 1 else .keyboardInterrupt,
          [.callbackRun])

/-- `ShutdownManager.register_block` -/
def registerBlock (s : ManagerState) (now : Time) (maxExecTime : Option Time)
    (runAtExit : Bool) : ManagerState × Except Outcome Key :=
  if s.attempts > 0 ∧ ¬runAtExit then
    (s, .error .shutdownImminent)
  else
    let key := s.nextKey
    let met := effDuration maxExecTime s.defaultMaxExecTime
    ({ s with registry := setKey s.registry key (now + met),
              nextKey := s.nextKey + 1 },
      .ok key)

/-- `ShutdownManager.renew_block` -/
def renewBlock (s : ManagerState) (now : Time) (key : Key)
    (maxExecTime : Option Time) : ManagerState :=
  { s with registry :=
      setKey s.registry key (now + effDuration maxExecTime s.defaultMaxExecTime) }

/-- `ShutdownManager.unregister_block`: removes the key, then forces delivery
via `_raise_exception` when a notification has been seen, the registry is now
empty and no kill has been raised yet. -/
def unregisterBlock (s : ManagerState) (key : Key) :
    ManagerState × Option Outcome × List Eff :=
  let s1 := { s with registry := removeKey s.registry key }
  if s1.attempts > 0 ∧ s1.registry.isEmpty ∧ ¬s1.killRaised then
    let r := raiseException s1
    (r.1, some r.2.1, r.2.2)
  else
    (s1, none, [])

/-- `ShutdownManager.check_break` -/
def checkBreak (s : ManagerState) : Bool :=
  s.attempts > 0

/-- `ShutdownManager._kill_time` -/
def killTime (s : ManagerState) : Time :=
  if s.killRaised then -1
  else if s.attempts ≥ s.maxTerminationAttempts then -1
  else if s.registry.isEmpty then -1
  else maxDeadline s.registry

/-- The first two lines of `ShutdownManager._graceful_exit`: `if is_term or
self._attempts > 1: self._term_requested = True`. -/
def escalateTermRequested (s : ManagerState) (isTerm : Bool) : ManagerState :=
  if isTerm ∨ s.attempts > 1 then { s with termRequested := true } else s

/-- `ShutdownManager._graceful_exit`: escalates `_term_requested`, then either
raises (when `_kill_time() < time.monotonic()`) or returns the remaining wait
`kill_time - curr_time`. -/
def gracefulExit (s : ManagerState) (isTerm : Bool) (now : Time) :
    ManagerState × Except Outcome Time × List Eff :=
  let s1 := escalateTermRequested s isTerm
  let kt := killTime s1
  if kt < now then
    let r := raiseException s1
    (r.1, .error r.2.1, r.2.2)
  else
    (s1, .ok (kt - now), [])

/-- `ShutdownManager._delayed_exit`.  In the source:

  `exit_time = time.monotonic() + max_exit_time - 0.5`
  `delay_time = self._graceful_exit(True)`  — may raise, propagating
  `while delay_time > 0:`
  `    time.sleep(delay_time)`
  `    delay_time = min(0.0, exit_time - time.monotonic(), self._graceful_exit(True))`
  `self._raise_exception()`

Because the loop recomputes `delay_time` as a `min` with `0.0`, the
recomputed value is never positive, so the loop body runs at most once; the
model is therefore non-recursive.  The sleep advances the clock by the slept
duration.  The inner `self._graceful_exit(True)` is evaluated as an argument
of `min` and may itself raise, which propagates. -/
def delayedExit (s : ManagerState) (now : Time) (maxExitTime : Time) :
    ManagerState × Outcome × List Eff :=
  let _exitTime := now + maxExitTime - 0.5
  let g1 := gracefulExit s true now
  match g1.2.1 with
  | .error o => (g1.1, o, g1.2.2)
  | .ok d1 =>
    if 0 < d1 then
      let g2 := gracefulExit g1.1 true (now + d1)
      match g2.2.1 with
      | .error o => (g2.1, o, .sleep d1 :: g2.2.2)
      | .ok _ =>
        -- min(0.0, exit_time - now2, d2) ≤ 0: the loop exits
        let r := raiseException g2.1
        (r.1, r.2.1, .sleep d1 :: r.2.2)
    else
      let r := raiseException g1.1
      (r.1, r.2.1, r.2.2)

/-- Console control events delivered to `_handle_windows_signal`
(`win32con.CTRL_*_EVENT`). -/
inductive WinSig where
  | close
  | shutdown
  | logoff
  | ctrlC
  | ctrlBreak
deriving DecidableEq, Repr

/-- `ShutdownManager._handle_windows_signal`.  The `Bool` is the handler's
return value; when `_delayed_exit` raises, the exception propagates and the
`return True` is never reached, so the outcome component is `some o`. -/
def handleWindowsSignal (s : ManagerState) (now : Time) (sig : WinSig) :
    ManagerState × Option Outcome × List Eff × Bool :=
  let s1 := { s with attempts := s.attempts + 1 }
  if sig = .close ∨ sig = .shutdown ∨ (sig = .logoff ∧ s.terminateOnLogoff) then
    let exitTime : Time := if sig = .close then 5 else 20
    let r := delayedExit s1 now exitTime
    (r.1, some r.2.1, r.2.2, true)
  else
    (s1, none, [], false)

/-- Signals delivered to `_handle_posix_signal` (SIGBREAK only on NT, SIGQUIT
and SIGHUP only on POSIX, per `_register_signals`). -/
inductive PosixSig where
  | sigint
  | sigterm
  | sigquit
  | sighup
  | sigbreak
deriving DecidableEq, Repr

/-- `ShutdownManager._handle_posix_signal`.  SIGHUP (registered only when
`os.name == 'posix'`) first runs the `hup_handler` if configured (unprotected:
if it raises, that propagates) and returns early when `terminate_on_hup` is
false.  Otherwise increments `_attempts`, consults `_graceful_exit` with
`is_term = (sig_num != SIGINT)`, and either lets the raise propagate, spawns
an `_InterruptingCow(delay)` daemon thread, or falls back to
`_raise_exception`. -/
def handlePosixSignal (s : ManagerState) (now : Time) (sig : PosixSig) :
    ManagerState × Option Outcome × List Eff :=
  let hupEs : List Eff :=
    if sig = .sighup ∧ (s.hupHandler).isSome then [.hupCallbackRun] else []
  if sig = .sighup ∧ s.hupHandler = some true then
    -- the hup handler itself raised; nothing after it runs
    (s, some .callbackError, hupEs)
  else if sig = .sighup ∧ ¬s.terminateOnHup then
    (s, none, hupEs)
  else
    let s1 := { s with attempts := s.attempts + 1 }
    let g := gracefulExit s1 (sig ≠ .sigint) now
    match g.2.1 with
    | .error o => (g.1, some o, hupEs ++ g.2.2)
    | .ok d =>
      if 0 < d then
        (g.1, none, hupEs ++ g.2.2 ++ [.spawnWatcher d])
      else
        let r := raiseException g.1
        (r.1, some r.2.1, hupEs ++ g.2.2 ++ r.2.2)

/-- `ProtectedBlock` instance state (`max_exec_time`, `run_at_exit`,
`_prot_key`). -/
structure ProtectedBlockState where
  maxExecTime : Option Time
  runAtExit : Bool
  protKey : Option Key
deriving DecidableEq, Repr

/-- `ProtectedBlock.protect`: registers and stores the key; a
`ShutdownImminentException` from `register_block` propagates with the key
left unset. -/
def ProtectedBlockState.protect (b : ProtectedBlockState) (s : ManagerState)
    (now : Time) : ProtectedBlockState × ManagerState × Option Outcome :=
  let r := registerBlock s now b.maxExecTime b.runAtExit
  match r.2 with
  | .ok k => ({ b with protKey := some k }, r.1, none)
  | .error o => (b, r.1, some o)

/-- `ProtectedBlock.unprotect`: `if self._prot_key:` (uuid strings are
non-empty, so truthiness is `isSome`), unregister, then clear the key.  If
`unregister_block` raises, the exception propagates before
`self._prot_key = None` runs, so the key stays set. -/
def ProtectedBlockState.unprotect (b : ProtectedBlockState) (s : ManagerState) :
    ProtectedBlockState × ManagerState × Option Outcome × List Eff :=
  match b.protKey with
  | none => (b, s, none, [])
  | some k =>
    let u := unregisterBlock s k
    match u.2.1 with
    | some out => (b, u.1, some out, u.2.2)
    | none => ({ b with protKey := none }, u.1, none, u.2.2)

/-- Exception classes for `ShutdownProtection.__exit__`'s `exc_type`
argument. -/
inductive ExcType where
  | haltProtectedBlock
  | systemExit
  | keyboardInterrupt
  | shutdownImminent
  | other
deriving DecidableEq, Repr

/-- `ShutdownProtection.__exit__`: calls `unprotect()` (whose raise
propagates), then returns `exc_type == HaltProtectedBlockException`
(`.ok true` = suppress the body's exception). -/
def exitShutdownProtection (b : ProtectedBlockState) (s : ManagerState)
    (excType : Option ExcType) :
    ProtectedBlockState × ManagerState × Except Outcome Bool × List Eff :=
  let r := b.unprotect s
  match r.2.2.1 with
  | some out => (r.1, r.2.1, .error out, r.2.2.2)
  | none => (r.1, r.2.1, .ok (excType = some .haltProtectedBlock), r.2.2.2)

/-- `configure_shutdown_manager`: each provided option overwrites the
corresponding manager attribute, with no validation. -/
def configureShutdownManager (s : ManagerState)
    (terminateOnLogoff terminateOnHup : Option Bool)
    (maxExecTime : Option Time) (maxAttempts : Option Nat)
    (beforeTermination beforeHup : Option Bool) : ManagerState :=
  let s := match terminateOnLogoff with
    | some v => { s with terminateOnLogoff := v } | none => s
  let s := match terminateOnHup with
    | some v => { s with terminateOnHup := v } | none => s
  let s := match maxExecTime with
    | some v => { s with defaultMaxExecTime := v } | none => s
  let s := match maxAttempts with
    | some v => { s with maxTerminationAttempts := v } | none => s
  let s := match beforeTermination with
    | some v => { s with beforeTermination := some v } | none => s
  match beforeHup with
    | some v => { s with hupHandler := some v } | none => s

/-- How both call sites consume `_graceful_exit`'s result
(`_handle_posix_signal`: `if delay_time > 0: ... start watcher else:
self._raise_exception()`; `_delayed_exit`: `while delay_time > 0`): a raise
from `_graceful_exit` or a non-positive returned wait means terminate now
(`none`); a positive wait `d` means wait `d` (`some d`). -/
def escalationDecision (s : ManagerState) (isTerm : Bool) (now : Time) :
    Option Time :=
  let g := gracefulExit s isTerm now
  match g.2.1 with
  | .error _ => none
  | .ok d => if 0 < d then some d else none

/-- The key-counter model of `uuid.uuid4()`: every registered key was drawn
before `nextKey`.  Holds for every state reachable through `register_block`,
which is the only operation the package itself uses to mint keys. -/
def WellFormed (s : ManagerState) : Prop :=
  ∀ p ∈ s.registry, p.1 < s.nextKey

/-- One block registered whose deadline is 20s away, a CLOSE event about to
arrive (`now = 0`). -/
def winBlockState : ManagerState :=
  { initialState true with registry := [(0, 20)], nextKey := 1 }

/-- One block registered whose deadline is 30s away, a SHUTDOWN event about
to arrive (`now = 0`). -/
def shutBlockState : ManagerState :=
  { initialState true with registry := [(0, 30)], nextKey := 1 }

/-- Two blocks registered at `now = 0` with grace 10s each. -/
def twoBlockState : ManagerState :=
  (registerBlock (registerBlock (initialState false) 0 (some 10) false).1
    0 (some 10) false).1

/-- `twoBlockState` after a SIGTERM notification at `t = 0`. -/
def twoBlockNotified : ManagerState :=
  (handlePosixSignal twoBlockState 0 .sigterm).1

/-- One block (grace 10s) registered at `t = 0`, then SIGINT at `t = 0`. -/
def softOnceState : ManagerState :=
  (handlePosixSignal (registerBlock (initialState false) 0 (some 10) false).1
    0 .sigint).1

/-- `softOnceState` after a second SIGINT at `t = 1`. -/
def softTwiceState : ManagerState :=
  (handlePosixSignal softOnceState 1 .sigint).1

/-- A notified manager whose `before_termination` callback raises. -/
def raisingCallbackState : ManagerState :=
  { initialState false with
      attempts := 1, termRequested := true, beforeTermination := some true }

/-- A manager that has already forced delivery (`_kill_raised = True`), with
a well-behaved `before_termination` callback configured. -/
def afterKillState : ManagerState :=
  { initialState false with
      attempts := 1, killRaised := true, termRequested := true,
      beforeTermination := some false }

/-- A protected-block handle currently holding key 0. -/
def heldHandle : ProtectedBlockState :=
  { maxExecTime := none, runAtExit := false, protKey := some 0 }

/-- A notified manager in which key 0 is the last registered block. -/
def lastBlockState : ManagerState :=
  { initialState false with registry := [(0, 10)], nextKey := 1, attempts := 1 }

/-- The manager after `configure_shutdown_manager(max_exec_time=-1)`, which
stores the value with no validation. -/
def negDefaultState : ManagerState :=
  configureShutdownManager (initialState false) none none (some (-1)) none
    none none

/-! Helper lemmas shared across the development. -/

theorem raiseException_killRaised (s : ManagerState) :
    (raiseException s).1.killRaised = true := by
  unfold raiseException
  cases s.beforeTermination with
  | none => rfl
  | some b => cases b <;> rfl

theorem raiseException_registry (s : ManagerState) :
    (raiseException s).1.registry = s.registry := by
  unfold raiseException
  cases s.beforeTermination with
  | none => rfl
  | some b => cases b <;> rfl

theorem raiseException_termRequested (s : ManagerState) :
    (raiseException s).1.termRequested = s.termRequested := by
  unfold raiseException
  cases s.beforeTermination with
  | none => rfl
  | some b => cases b <;> rfl

theorem raiseException_noSleep (s : ManagerState) :
    ((raiseException s).2.2).all (fun e => !e.isSleep) = true := by
  unfold raiseException
  cases s.beforeTermination with
  | none => rfl
  | some b => cases b <;> rfl

theorem escalateTermRequested_killRaised (s : ManagerState) (isTerm : Bool) :
    (escalateTermRequested s isTerm).killRaised = s.killRaised := by
  unfold escalateTermRequested
  split <;> rfl

theorem escalateTermRequested_registry (s : ManagerState) (isTerm : Bool) :
    (escalateTermRequested s isTerm).registry = s.registry := by
  unfold escalateTermRequested
  split <;> rfl

theorem escalateTermRequested_termRequested (s : ManagerState) (isTerm : Bool) :
    (escalateTermRequested s isTerm).termRequested =
      (s.termRequested || isTerm || decide (s.attempts > 1)) := by
  unfold escalateTermRequested
  split
  · next h =>
    rcases h with h | h
    · simp [h]
    · simp [h]
  · next h =>
    push_neg at h
    obtain ⟨h1, h2⟩ := h
    have hb : isTerm = false := by
      cases isTerm
      · rfl
      · exact absurd rfl h1
    simp [hb, h2]

theorem killTime_escalateTermRequested (s : ManagerState) (isTerm : Bool) :
    killTime (escalateTermRequested s isTerm) = killTime s := by
  unfold escalateTermRequested killTime
  split <;> rfl

theorem gracefulExit_killRaised_mono (s : ManagerState) (isTerm : Bool)
    (now : Time) (h : s.killRaised = true) :
    (gracefulExit s isTerm now).1.killRaised = true := by
  simp only [gracefulExit]
  split
  · exact raiseException_killRaised _
  · rw [escalateTermRequested_killRaised]
    exact h

theorem gracefulExit_termRequested (s : ManagerState) (isTerm : Bool)
    (now : Time) :
    (gracefulExit s isTerm now).1.termRequested =
      (s.termRequested || isTerm || decide (s.attempts > 1)) := by
  simp only [gracefulExit]
  split
  · rw [raiseException_termRequested, escalateTermRequested_termRequested]
  · rw [escalateTermRequested_termRequested]

theorem delayedExit_killRaised_mono (s : ManagerState) (now dur : Time)
    (h : s.killRaised = true) :
    (delayedExit s now dur).1.killRaised = true := by
  simp only [delayedExit]
  split
  · exact gracefulExit_killRaised_mono _ _ _ h
  · split
    · split
      · exact gracefulExit_killRaised_mono _ _ _
          (gracefulExit_killRaised_mono _ _ _ h)
      · exact raiseException_killRaised _
    · exact raiseException_killRaised _

theorem unregisterBlock_after_kill (s : ManagerState) (k : Key)
    (h : s.killRaised = true) :
    unregisterBlock s k = ({ s with registry := removeKey s.registry k },
      none, []) := by
  simp only [unregisterBlock]
  rw [if_neg]
  simp [h]

theorem handlePosixSignal_killRaised_mono (s : ManagerState) (now : Time)
    (sig : PosixSig) (h : s.killRaised = true) :
    (handlePosixSignal s now sig).1.killRaised = true := by
  simp only [handlePosixSignal]
  split
  · exact h
  · split
    · exact h
    · split
      · exact gracefulExit_killRaised_mono _ _ _ h
      · split
        · exact gracefulExit_killRaised_mono _ _ _ h
        · exact raiseException_killRaised _

theorem handleWindowsSignal_killRaised_mono (s : ManagerState) (now : Time)
    (sig : WinSig) (h : s.killRaised = true) :
    (handleWindowsSignal s now sig).1.killRaised = true := by
  simp only [handleWindowsSignal]
  split
  · exact delayedExit_killRaised_mono _ _ _ h
  · exact h

/-- Claim C1 (refuted by the code, which contradicts its own comments): with
a CTRL_CLOSE_EVENT (outer ceiling 5s, so an outer deadline of 4.5s after the
0.5s margin) and one registered block whose deadline is 20s away, the
delivery path's one and only sleep is the raw registry wait of 20 seconds:
the outer ceiling never clamps it, because `_delayed_exit`'s first
`delay_time` comes straight from `_graceful_exit` and the loop's recomputed
`min(0.0, exit_time - now, ...)` is never positive. -/
theorem c1_close_event_sleeps_raw_registry_wait :
    (handleWindowsSignal winBlockState 0 .close).2.2.1 = [Eff.sleep 20] ∧
    (5 : Time) - 0.5 < 20 := by
  constructor
  · norm_num [handleWindowsSignal, delayedExit, gracefulExit, escalateTermRequested,
      killTime, raiseException, winBlockState, initialState, maxDeadline]
  · norm_num

/-- Claim C2 is false as stated: with a `before_termination` callback that
raises and `hard_mode` set, forced delivery propagates the callback's
exception instead of raising the termination outcome — `_raise_exception`
has no handler around `self.before_termination()`. -/
theorem c2_callback_error_not_discarded :
    (raiseException raisingCallbackState).2.1 = Outcome.callbackError ∧
    Outcome.callbackError ≠ Outcome.systemExit 1 ∧
    Outcome.callbackError ≠ Outcome.keyboardInterrupt := by
  refine ⟨?_, by decide, by decide⟩
  simp [raiseException, raisingCallbackState, initialState]

/-- Claim C2 amended: forced delivery sets the terminated flag and then runs
the pre-termination callback unprotected — if the callback raises, its
exception propagates in place of the termination outcome; when the callback
returns normally (or none is configured), delivery raises `SystemExit(1)` in
hard mode and `KeyboardInterrupt` otherwise.  Only logging failures inside
`_safe_log` are caught and discarded. -/
theorem c2_amended_callback_failure_propagates (s : ManagerState) :
    (s.beforeTermination = some true →
      raiseException s =
        ({ s with killRaised := true }, Outcome.callbackError,
          [Eff.callbackRun])) ∧
    (s.beforeTermination = some false →
      raiseException s =
        ({ s with killRaised := true },
          if s.termRequested then Outcome.systemExit 1
          else Outcome.keyboardInterrupt,
          [Eff.callbackRun])) ∧
    (s.beforeTermination = none →
      raiseException s =
        ({ s with killRaised := true },
          if s.termRequested then Outcome.systemExit 1
          else Outcome.keyboardInterrupt, [])) := by
  refine ⟨?_, ?_, ?_⟩ <;> intro h <;> simp [raiseException, h]

theorem c2_amended_witness :
    raiseException raisingCallbackState =
      ({ raisingCallbackState with killRaised := true },
        Outcome.callbackError, [Eff.callbackRun]) :=
  (c2_amended_callback_failure_propagates raisingCallbackState).1 rfl

/-- Claim C3 is false in its no-op part: after a forced delivery
(`_kill_raised = True`), a later escalation-policy consultation through
`_graceful_exit` is not a no-op — `_kill_time` returns `-1`, which is below
the clock, so `_raise_exception` runs again, re-invoking the
pre-termination callback and raising a second termination outcome. -/
theorem c3_graceful_exit_after_kill_raises_again :
    (gracefulExit afterKillState true 0).2.1 =
      Except.error (Outcome.systemExit 1) ∧
    (gracefulExit afterKillState true 0).2.2 = [Eff.callbackRun] := by
  constructor <;>
    norm_num [gracefulExit, escalateTermRequested, killTime, raiseException,
      afterKillState, initialState]

/-- Claim C3 amended: the terminated flag (`_kill_raised`) transitions
false→true at most once and never reverts — no operation of the manager
resets it.  However, after a forced delivery only `unregister_block` becomes
a no-op: a later escalation-policy consultation (`_graceful_exit`, and the
paths through it in `_delayed_exit` and the signal handlers) sees
`_kill_time() = -1`, runs `_raise_exception` again, re-invokes the
pre-termination callback and raises a second termination outcome. -/
theorem c3_amended_terminated_monotone_but_redelivery
    (s : ManagerState) (now dur : Time) (k : Key) (met : Option Time)
    (rae isTerm : Bool) (sig : PosixSig) (wsig : WinSig)
    (tol toh bt bh : Option Bool) (md : Option Time) (ma : Option Nat)
    (h : s.killRaised = true) :
    (registerBlock s now met rae).1.killRaised = true ∧
    (renewBlock s now k met).killRaised = true ∧
    (unregisterBlock s k).1.killRaised = true ∧
    (unregisterBlock s k).2.1 = none ∧
    (raiseException s).1.killRaised = true ∧
    (gracefulExit s isTerm now).1.killRaised = true ∧
    (delayedExit s now dur).1.killRaised = true ∧
    (handlePosixSignal s now sig).1.killRaised = true ∧
    (handleWindowsSignal s now wsig).1.killRaised = true ∧
    (configureShutdownManager s tol toh md ma bt bh).killRaised = true := by
  refine ⟨?_, h, ?_, ?_, raiseException_killRaised _,
    gracefulExit_killRaised_mono _ _ _ h, delayedExit_killRaised_mono _ _ _ h,
    handlePosixSignal_killRaised_mono _ _ _ h,
    handleWindowsSignal_killRaised_mono _ _ _ h, ?_⟩
  · simp only [registerBlock]
    split
    · exact h
    · exact h
  · rw [unregisterBlock_after_kill _ _ h]
    exact h
  · rw [unregisterBlock_after_kill _ _ h]
  · cases tol <;> cases toh <;> cases md <;> cases ma <;> cases bt <;>
      cases bh <;> exact h

theorem c3_amended_witness : (unregisterBlock afterKillState 0).2.1 = none :=
  (c3_amended_terminated_monotone_but_redelivery afterKillState 0 0 0 none
    false false .sigint .close none none none none none none rfl).2.2.2.1

theorem escalationDecision_eq (s : ManagerState) (isTerm : Bool) (now : Time) :
    escalationDecision s isTerm now =
      if killTime s < now then none
      else if 0 < killTime s - now then some (killTime s - now) else none := by
  simp only [escalationDecision, gracefulExit, killTime_escalateTermRequested]
  by_cases hlt : killTime s < now
  · simp only [if_pos hlt]
  · simp only [if_neg hlt]

/-- Claim C4: the escalation decision, as both call sites consume it,
follows the claimed first-match order: already terminated → terminate now;
attempt ceiling reached (default 3) → terminate now; empty registry →
terminate now; otherwise wait `max_deadline - now`, terminating now when
that is non-positive. -/
theorem c4_escalation_policy_first_match (s : ManagerState) (isTerm : Bool)
    (now : Time) (hnow : 0 ≤ now) :
    escalationDecision s isTerm now =
      (if s.killRaised then none
       else if s.attempts ≥ s.maxTerminationAttempts then none
       else if s.registry.isEmpty then none
       else if maxDeadline s.registry - now ≤ 0 then none
       else some (maxDeadline s.registry - now)) ∧
    (initialState true).maxTerminationAttempts = 3 ∧
    (initialState false).maxTerminationAttempts = 3 := by
  refine ⟨?_, rfl, rfl⟩
  rw [escalationDecision_eq]
  by_cases hk : s.killRaised = true
  · have h1 : killTime s = -1 := by simp [killTime, hk]
    rw [h1, if_pos (by linarith : (-1 : ℚ) < now)]
    simp [hk]
  · by_cases ha : s.attempts ≥ s.maxTerminationAttempts
    · have h1 : killTime s = -1 := by simp [killTime, hk, ha]
      rw [h1, if_pos (by linarith : (-1 : ℚ) < now)]
      simp [hk, ha]
    · by_cases he : s.registry.isEmpty = true
      · have h1 : killTime s = -1 := by simp [killTime, hk, ha, he]
        rw [h1, if_pos (by linarith : (-1 : ℚ) < now)]
        simp [hk, ha, he]
      · have h1 : killTime s = maxDeadline s.registry := by
          simp [killTime, hk, ha, he]
        rw [h1]
        by_cases hlt : maxDeadline s.registry < now
        · rw [if_pos hlt]
          have hle : maxDeadline s.registry - now ≤ 0 := by linarith
          simp [hk, ha, he, hle]
        · rw [if_neg hlt]
          by_cases hz : 0 < maxDeadline s.registry - now
          · rw [if_pos hz]
            have hle : ¬maxDeadline s.registry - now ≤ 0 := by linarith
            simp [hk, ha, he, hle]
          · rw [if_neg hz]
            have hle : maxDeadline s.registry - now ≤ 0 := by linarith
            simp [hk, ha, he, hle]

theorem c4_witness : escalationDecision (initialState true) true 0 = none := by
  have h := (c4_escalation_policy_first_match (initialState true) true 0
    le_rfl).1
  simpa [initialState] using h

theorem twoBlockState_eq : twoBlockState =
    { registry := [(1, 10), (0, 10)], nextKey := 2, attempts := 0,
      killRaised := false, termRequested := false, terminateOnLogoff := true,
      terminateOnHup := true, defaultMaxExecTime := 179/2,
      maxTerminationAttempts := 3, beforeTermination := none,
      hupHandler := none } := by
  norm_num [twoBlockState, registerBlock, setKey, effDuration, initialState]

theorem twoBlockNotified_eq : twoBlockNotified =
    { registry := [(1, 10), (0, 10)], nextKey := 2, attempts := 1,
      killRaised := false, termRequested := true, terminateOnLogoff := true,
      terminateOnHup := true, defaultMaxExecTime := 179/2,
      maxTerminationAttempts := 3, beforeTermination := none,
      hupHandler := none } := by
  rw [twoBlockNotified, twoBlockState_eq]
  have hS : (PosixSig.sigterm = PosixSig.sighup) = False := by simp
  have hI : (PosixSig.sigterm = PosixSig.sigint) = False := by simp
  norm_num [handlePosixSignal, gracefulExit, escalateTermRequested,
    killTime, maxDeadline, raiseException, hS, hI]

/-- Claim C5: `unregister_block` always removes the record, and forces
delivery synchronously (returns a raised outcome) iff a notification has
been received, the registry is empty after the removal, and no kill has been
raised yet.  Scenario C: two blocks (grace 10s), `SIGTERM` at `t = 0`; the
first unregister raises nothing, the second forces `SystemExit(1)`
(HardTermination). -/
theorem c5_unregister_forces_iff_last_block :
    (∀ s k,
      (unregisterBlock s k).1.registry = removeKey s.registry k ∧
      ((unregisterBlock s k).2.1 ≠ none ↔
        (s.attempts > 0 ∧ removeKey s.registry k = [] ∧
          s.killRaised = false))) ∧
    (unregisterBlock twoBlockNotified 0).2.1 = none ∧
    (unregisterBlock (unregisterBlock twoBlockNotified 0).1 1).2.1 =
      some (Outcome.systemExit 1) := by
  refine ⟨fun s k => ⟨?_, ?_⟩, ?_, ?_⟩
  · simp only [unregisterBlock]
    split
    · rw [raiseException_registry]
    · rfl
  · simp only [unregisterBlock]
    split
    · next hcond =>
      obtain ⟨h1, h2, h3⟩ := hcond
      simp only [Bool.not_eq_true] at h3
      simp only [List.isEmpty_iff] at h2
      simp only [ne_eq, reduceCtorEq, not_false_eq_true, true_iff]
      exact ⟨h1, h2, h3⟩
    · next hcond =>
      simp only [ne_eq, not_true_eq_false, false_iff, not_not]
      intro ⟨h1, h2, h3⟩
      exact absurd ⟨h1, by simpa [List.isEmpty_iff] using h2,
        by simp [h3]⟩ hcond
  · rw [twoBlockNotified_eq]
    norm_num [unregisterBlock, removeKey, List.filter, raiseException]
  · rw [twoBlockNotified_eq]
    norm_num [unregisterBlock, removeKey, List.filter, raiseException]

theorem setKey_of_not_mem (r : List (Key × Time)) (k : Key) (d : Time)
    (h : ∀ p ∈ r, p.1 ≠ k) : setKey r k d = (k, d) :: r := by
  have hc : ¬((r.any fun p => decide (p.1 = k)) = true) := by
    rw [List.any_eq_true]
    rintro ⟨p, hp, hpk⟩
    exact h p hp (by simpa using hpk)
  unfold setKey
  rw [if_neg hc]

/-- Claim C6: `register_block` refuses with `ShutdownImminentException` iff
at least one termination notification has been received (`_attempts > 0`)
and `run_at_exit` is false; otherwise — including `run_at_exit = true` after
a notification — it stores `deadline = now + (max_exec_time or the default
grace period)` under a fresh key not present in the registry, and returns
that key.  Key freshness relies on the uuid model (`WellFormed`), which
registration preserves. -/
theorem c6_register_refusal_and_fresh_key (s : ManagerState) (now : Time)
    (met : Option Time) (rae : Bool) (hwf : WellFormed s) :
    ((registerBlock s now met rae).2 = .error .shutdownImminent ↔
      (s.attempts > 0 ∧ rae = false)) ∧
    (¬(s.attempts > 0 ∧ rae = false) →
      registerBlock s now met rae =
        ({ s with
            registry :=
              (s.nextKey, now + effDuration met s.defaultMaxExecTime) ::
                s.registry,
            nextKey := s.nextKey + 1 },
          .ok s.nextKey)) ∧
    (∀ p ∈ s.registry, p.1 ≠ s.nextKey) ∧
    WellFormed (registerBlock s now met rae).1 := by
  have hfresh : ∀ p ∈ s.registry, p.1 ≠ s.nextKey := fun p hp =>
    Nat.ne_of_lt (hwf p hp)
  have hcond : (s.attempts > 0 ∧ ¬rae = true) ↔ (s.attempts > 0 ∧ rae = false) := by
    simp [Bool.not_eq_true]
  refine ⟨?_, ?_, hfresh, ?_⟩
  · simp only [registerBlock]
    by_cases h : s.attempts > 0 ∧ ¬rae = true
    · rw [if_pos h]
      simpa using hcond.mp h
    · rw [if_neg h]
      simpa using fun hc => h (hcond.mpr hc)
  · intro hn
    have h' : ¬(s.attempts > 0 ∧ ¬rae = true) := fun h => hn (hcond.mp h)
    simp only [registerBlock, if_neg h']
    rw [setKey_of_not_mem _ _ _ hfresh]
  · simp only [registerBlock]
    split
    · exact hwf
    · intro p hp
      simp only at hp
      rw [setKey_of_not_mem _ _ _ hfresh] at hp
      rcases List.mem_cons.mp hp with hq | hq
      · subst hq
        exact Nat.lt_succ_self _
      · exact Nat.lt_succ_of_lt (hwf p hq)

theorem c6_witness :
    WellFormed (registerBlock (initialState false) 0 none false).1 :=
  (c6_register_refusal_and_fresh_key (initialState false) 0 none false
    (fun p hp => absurd hp (by simp [initialState]))).2.2.2

theorem raiseException_termRequested_mono (s : ManagerState)
    (h : s.termRequested = true) :
    (raiseException s).1.termRequested = true := by
  rw [raiseException_termRequested]
  exact h

theorem gracefulExit_termRequested_mono (s : ManagerState) (isTerm : Bool)
    (now : Time) (h : s.termRequested = true) :
    (gracefulExit s isTerm now).1.termRequested = true := by
  rw [gracefulExit_termRequested, h]
  rfl

theorem delayedExit_termRequested_mono (s : ManagerState) (now dur : Time)
    (h : s.termRequested = true) :
    (delayedExit s now dur).1.termRequested = true := by
  simp only [delayedExit]
  split
  · exact gracefulExit_termRequested_mono _ _ _ h
  · split
    · split
      · exact gracefulExit_termRequested_mono _ _ _
          (gracefulExit_termRequested_mono _ _ _ h)
      · exact raiseException_termRequested_mono _
          (gracefulExit_termRequested_mono _ _ _
            (gracefulExit_termRequested_mono _ _ _ h))
    · exact raiseException_termRequested_mono _
        (gracefulExit_termRequested_mono _ _ _ h)

theorem unregisterBlock_termRequested_mono (s : ManagerState) (k : Key)
    (h : s.termRequested = true) :
    (unregisterBlock s k).1.termRequested = true := by
  simp only [unregisterBlock]
  split
  · exact raiseException_termRequested_mono _ h
  · exact h

theorem handlePosixSignal_termRequested_mono (s : ManagerState) (now : Time)
    (sig : PosixSig) (h : s.termRequested = true) :
    (handlePosixSignal s now sig).1.termRequested = true := by
  simp only [handlePosixSignal]
  split
  · exact h
  · split
    · exact h
    · split
      · exact gracefulExit_termRequested_mono _ _ _ h
      · split
        · exact gracefulExit_termRequested_mono _ _ _ h
        · exact raiseException_termRequested_mono _
            (gracefulExit_termRequested_mono _ _ _ h)

theorem handleWindowsSignal_termRequested_mono (s : ManagerState)
    (now : Time) (sig : WinSig) (h : s.termRequested = true) :
    (handleWindowsSignal s now sig).1.termRequested = true := by
  simp only [handleWindowsSignal]
  split
  · exact delayedExit_termRequested_mono _ _ _ h
  · exact h

theorem softOnceState_eq : softOnceState =
    { registry := [(0, 10)], nextKey := 1, attempts := 1,
      killRaised := false, termRequested := false, terminateOnLogoff := true,
      terminateOnHup := true, defaultMaxExecTime := 179/2,
      maxTerminationAttempts := 3, beforeTermination := none,
      hupHandler := none } := by
  have hS : (PosixSig.sigint = PosixSig.sighup) = False := by simp
  norm_num [softOnceState, registerBlock, setKey, effDuration, initialState,
    handlePosixSignal, gracefulExit, escalateTermRequested, killTime,
    maxDeadline, raiseException, hS]

theorem softTwiceState_eq : softTwiceState =
    { registry := [(0, 10)], nextKey := 1, attempts := 2,
      killRaised := false, termRequested := true, terminateOnLogoff := true,
      terminateOnHup := true, defaultMaxExecTime := 179/2,
      maxTerminationAttempts := 3, beforeTermination := none,
      hupHandler := none } := by
  have hS : (PosixSig.sigint = PosixSig.sighup) = False := by simp
  rw [softTwiceState, softOnceState_eq]
  norm_num [handlePosixSignal, gracefulExit, escalateTermRequested, killTime,
    maxDeadline, raiseException, hS]

/-- Claim C7: `_term_requested` (hard mode) is set by `_graceful_exit`
exactly when the notification kind is hard (`is_term`) or this is not the
first notification (`_attempts > 1` after the increment), and no operation
ever resets it.  Scenario D: after two soft interrupts (SIGINT) before
resolution, hard mode is set, and the eventual forced delivery (the third
wake-up at `t = 10`) raises `SystemExit(1)`, not `KeyboardInterrupt`. -/
theorem c7_hard_mode_escalation (s : ManagerState) (now dur : Time)
    (k : Key) (met : Option Time) (rae isTerm : Bool) (sig : PosixSig)
    (wsig : WinSig) (tol toh bt bh : Option Bool) (md : Option Time)
    (ma : Option Nat) :
    ((gracefulExit s isTerm now).1.termRequested =
      (s.termRequested || isTerm || decide (s.attempts > 1))) ∧
    (s.termRequested = true →
      (registerBlock s now met rae).1.termRequested = true ∧
      (renewBlock s now k met).termRequested = true ∧
      (unregisterBlock s k).1.termRequested = true ∧
      (raiseException s).1.termRequested = true ∧
      (gracefulExit s isTerm now).1.termRequested = true ∧
      (delayedExit s now dur).1.termRequested = true ∧
      (handlePosixSignal s now sig).1.termRequested = true ∧
      (handleWindowsSignal s now wsig).1.termRequested = true ∧
      (configureShutdownManager s tol toh md ma bt bh).termRequested = true) ∧
    softOnceState.termRequested = false ∧
    softTwiceState.termRequested = true ∧
    (handlePosixSignal softTwiceState 10 .sigint).2.1 =
      some (Outcome.systemExit 1) := by
  refine ⟨gracefulExit_termRequested s isTerm now, ?_, ?_, ?_, ?_⟩
  · intro h
    refine ⟨?_, h, unregisterBlock_termRequested_mono _ _ h,
      raiseException_termRequested_mono _ h,
      gracefulExit_termRequested_mono _ _ _ h,
      delayedExit_termRequested_mono _ _ _ h,
      handlePosixSignal_termRequested_mono _ _ _ h,
      handleWindowsSignal_termRequested_mono _ _ _ h, ?_⟩
    · simp only [registerBlock]
      split
      · exact h
      · exact h
    · cases tol <;> cases toh <;> cases md <;> cases ma <;> cases bt <;>
        cases bh <;> exact h
  · rw [softOnceState_eq]
  · rw [softTwiceState_eq]
  · have hS : (PosixSig.sigint = PosixSig.sighup) = False := by simp
    rw [softTwiceState_eq]
    norm_num [handlePosixSignal, gracefulExit, escalateTermRequested,
      killTime, maxDeadline, raiseException, hS]

theorem c7_witness :
    (unregisterBlock softTwiceState 0).1.termRequested = true ∧
    (handlePosixSignal softTwiceState 10 .sigint).2.1 =
      some (Outcome.systemExit 1) :=
  ⟨((c7_hard_mode_escalation softTwiceState 10 0 0 none false false .sigint
      .close none none none none none none).2.1
      (by rw [softTwiceState_eq])).2.2.1,
    (c7_hard_mode_escalation softTwiceState 10 0 0 none false false .sigint
      .close none none none none none none).2.2.2.2⟩

theorem gracefulExit_noSleep (s : ManagerState) (isTerm : Bool) (now : Time) :
    ((gracefulExit s isTerm now).2.2).all (fun e => !e.isSleep) = true := by
  simp only [gracefulExit]
  split
  · exact raiseException_noSleep _
  · rfl

/-- Claim C8 is false in its windows part: for close/shutdown/logoff-class
events the notify entry point (`_handle_windows_signal`) sleeps synchronously
in the notification-delivery context — `_delayed_exit` calls `time.sleep`
on the calling thread, here for the full 30-second registry wait. -/
theorem c8_notify_sleeps_in_delivery_context :
    (handleWindowsSignal shutBlockState 0 .shutdown).2.2.1 =
      [Eff.sleep 30] ∧
    Eff.isSleep (Eff.sleep 30) = true := by
  constructor
  · norm_num [handleWindowsSignal, delayedExit, gracefulExit,
      escalateTermRequested, killTime, raiseException, shutBlockState,
      initialState, maxDeadline]
  · rfl

/-- Claim C8 amended: `register_block`, `renew_block` and `check_break` are
pure state operations with no effects at all in this model (the source
performs no sleeping or callback invocation in them); `unregister_block` and
the POSIX notify path never sleep — the only sleeping on the POSIX side
happens in the spawned `_InterruptingCow` daemon thread.  The windows notify
path for close/shutdown/logoff-class events, however, sleeps synchronously
in the delivery context (see the counterexample). -/
theorem c8_amended_posix_paths_never_sleep (s : ManagerState) (now : Time)
    (k : Key) (sig : PosixSig) :
    ((unregisterBlock s k).2.2).all (fun e => !e.isSleep) = true ∧
    ((handlePosixSignal s now sig).2.2).all (fun e => !e.isSleep) = true := by
  constructor
  · simp only [unregisterBlock]
    split
    · exact raiseException_noSleep _
    · rfl
  · simp only [handlePosixSignal]
    split
    · split <;> rfl
    · split
      · split <;> rfl
      · split
        · rw [List.all_append]
          rw [gracefulExit_noSleep]
          rw [Bool.and_true]
          split <;> rfl
        · split
          · rw [List.all_append, List.all_append]
            rw [gracefulExit_noSleep]
            simp only [List.all_cons, List.all_nil]
            rw [show Eff.isSleep (Eff.spawnWatcher _) = false from rfl]
            simp only [Bool.not_false, Bool.and_true, Bool.true_and]
            split <;> rfl
          · rw [List.all_append, List.all_append]
            rw [gracefulExit_noSleep, raiseException_noSleep]
            simp only [Bool.and_true]
            split <;> rfl

/-- Claim C9 is false in its id-clearing part: when `unregister_block`
raises the termination outcome, `ProtectedBlock.unprotect` never reaches
`self._prot_key = None`, so after `__exit__` propagates the outcome the
handle still holds its key. -/
theorem c9_exit_keeps_key_when_unregister_raises :
    (exitShutdownProtection heldHandle lastBlockState none).2.2.1 =
      Except.error Outcome.keyboardInterrupt ∧
    (exitShutdownProtection heldHandle lastBlockState none).1.protKey =
      some 0 := by
  constructor <;>
    norm_num [exitShutdownProtection, ProtectedBlockState.unprotect,
      unregisterBlock, raiseException, removeKey, List.filter, heldHandle,
      lastBlockState, initialState]

/-- Claim C9 amended: `__exit__` first unregisters the held block; any
termination outcome raised by the unregister propagates (and then the
stored id remains set); otherwise the stored id is cleared and an exception
leaving the body is suppressed iff its type is
`HaltProtectedBlockException` — `SystemExit`, `KeyboardInterrupt` and all
other types propagate. -/
theorem c9_amended_exit_semantics (b : ProtectedBlockState)
    (s : ManagerState) (excType : Option ExcType) :
    (b.protKey = none →
      exitShutdownProtection b s excType =
        (b, s, .ok (excType = some .haltProtectedBlock), [])) ∧
    (∀ k, b.protKey = some k →
      (exitShutdownProtection b s excType).2.1.registry =
        removeKey s.registry k ∧
      (∀ o, (unregisterBlock s k).2.1 = some o →
        exitShutdownProtection b s excType =
          (b, (unregisterBlock s k).1, .error o,
            (unregisterBlock s k).2.2)) ∧
      ((unregisterBlock s k).2.1 = none →
        exitShutdownProtection b s excType =
          ({ b with protKey := none }, (unregisterBlock s k).1,
            .ok (excType = some .haltProtectedBlock),
            (unregisterBlock s k).2.2))) := by
  constructor
  · intro h
    simp only [exitShutdownProtection, ProtectedBlockState.unprotect, h]
  · intro k hk
    refine ⟨?_, ?_, ?_⟩
    · simp only [exitShutdownProtection, ProtectedBlockState.unprotect, hk]
      rcases ho : (unregisterBlock s k).2.1 with _ | o
      · simp only [ho]
        have : (unregisterBlock s k).1.registry = removeKey s.registry k := by
          simp only [unregisterBlock]
          split
          · rw [raiseException_registry]
          · rfl
        exact this
      · simp only [ho]
        have : (unregisterBlock s k).1.registry = removeKey s.registry k := by
          simp only [unregisterBlock]
          split
          · rw [raiseException_registry]
          · rfl
        exact this
    · intro o ho
      simp only [exitShutdownProtection, ProtectedBlockState.unprotect, hk, ho]
    · intro ho
      simp only [exitShutdownProtection, ProtectedBlockState.unprotect, hk, ho]

theorem c9_amended_witness :
    exitShutdownProtection heldHandle lastBlockState none =
      (heldHandle, (unregisterBlock lastBlockState 0).1,
        .error Outcome.keyboardInterrupt,
        (unregisterBlock lastBlockState 0).2.2) :=
  ((c9_amended_exit_semantics heldHandle lastBlockState none).2 0 rfl).2.1
    Outcome.keyboardInterrupt
    (by norm_num [unregisterBlock, raiseException, removeKey, List.filter,
      lastBlockState, initialState])

/-- Claim C10 is false without a positivity assumption on the configured
default: `configure_shutdown_manager(max_exec_time=-1)` is stored with no
validation, after which `register_block(None)` stores a deadline strictly
in the past. -/
theorem c10_negative_default_makes_past_deadline :
    (registerBlock negDefaultState 0 none false).2 = Except.ok 0 ∧
    (registerBlock negDefaultState 0 none false).1.registry = [(0, -1)] ∧
    (-1 : Time) < 0 := by
  refine ⟨?_, ?_, by norm_num⟩ <;>
    norm_num [registerBlock, setKey, effDuration, negDefaultState,
      configureShutdownManager, initialState]

/-- Claim C10 amended: in both `register_block` and `renew_block`, a
requested `max_exec_time` that is `None`, zero or negative is silently
replaced by the configured default grace period, and — provided that
configured default is positive, as the initial defaults 4.5s/89.5s are
(`configure_shutdown_manager` performs no validation) — the stored deadline
`now + effective duration` is strictly in the future. -/
theorem c10_amended_positive_default_future_deadline (s : ManagerState)
    (now : Time) (k : Key) (met : Option Time) (rae : Bool)
    (h : 0 < s.defaultMaxExecTime) :
    effDuration none s.defaultMaxExecTime = s.defaultMaxExecTime ∧
    (∀ t, t ≤ 0 → effDuration (some t) s.defaultMaxExecTime =
      s.defaultMaxExecTime) ∧
    now < now + effDuration met s.defaultMaxExecTime ∧
    renewBlock s now k met =
      { s with
          registry :=
            setKey s.registry k (now + effDuration met s.defaultMaxExecTime) } ∧
    (∀ k2, (registerBlock s now met rae).2 = .ok k2 →
      (registerBlock s now met rae).1.registry =
        setKey s.registry k2
          (now + effDuration met s.defaultMaxExecTime)) := by
  have hpos : 0 < effDuration met s.defaultMaxExecTime := by
    rcases met with _ | t
    · exact h
    · simp only [effDuration]
      split
      · exact h
      · next ht => exact lt_of_not_le ht
  refine ⟨rfl, ?_, by linarith, rfl, ?_⟩
  · intro t ht
    simp [effDuration, ht]
  · intro k2 hk2
    simp only [registerBlock] at hk2 ⊢
    by_cases hg : s.attempts > 0 ∧ ¬rae = true
    · rw [if_pos hg] at hk2
      exact absurd hk2 (by simp)
    · rw [if_neg hg] at hk2 ⊢
      simp only [Except.ok.injEq] at hk2
      subst hk2
      rfl

theorem c10_amended_witness :
    (0 : Time) <
      0 + effDuration none (initialState false).defaultMaxExecTime := by
  have h := (c10_amended_positive_default_future_deadline
    (initialState false) 0 0 none false (by norm_num [initialState])).2.2.1
  exact h

end GracefulShutdown
